import Mathlib

/-!
Verification development for the PDEG → Home Assistant TCP bridge
(`main.py` of the `ha-ip-binary` repository).

The Python source is shallowly embedded: every function below mirrors the
body of the corresponding Python function (same name where Lean allows it).
Strings are modelled by Lean `String`, byte sequences by `List Nat` (each
entry one byte value), Python exceptions by `Except String`.  The embedding
restricts Python's Unicode-aware `str.lower` to its ASCII action (all
protocol traffic is ASCII); `str.strip` / `re.split(r"\s+")` use the full
Unicode whitespace set that CPython uses.
-/

namespace HaIpBinary

/-- Whitespace characters recognised by CPython `str.strip()` and by `\s`
in `re` patterns over `str` (Unicode whitespace). -/
def pyIsSpace (c : Char) : Bool :=
  decide ((9 ≤ c.toNat ∧ c.toNat ≤ 13) ∨ (28 ≤ c.toNat ∧ c.toNat ≤ 31) ∨
    c.toNat = 32 ∨ c.toNat = 0x85 ∨ c.toNat = 0xA0 ∨ c.toNat = 0x1680 ∨
    (0x2000 ≤ c.toNat ∧ c.toNat ≤ 0x200A) ∨ c.toNat = 0x2028 ∨
    c.toNat = 0x2029 ∨ c.toNat = 0x202F ∨ c.toNat = 0x205F ∨ c.toNat = 0x3000)

/-- Model of Python `str.strip()`: remove leading and trailing whitespace. -/
def pyStrip (s : String) : String :=
  String.mk (((s.data.dropWhile pyIsSpace).reverse.dropWhile pyIsSpace).reverse)

/-- ASCII action of Python `str.lower()` on one character. -/
def pyLowerChar (c : Char) : Char :=
  if 'A' ≤ c ∧ c ≤ 'Z' then Char.ofNat (c.toNat + 32) else c

/-- ASCII model of Python `str.lower()`. -/
def pyLower (s : String) : String :=
  String.mk (s.data.map pyLowerChar)

/-- Tokeniser underlying `re.split(r"\s+", s)` for a string `s` with no
leading whitespace: maximal runs of non-whitespace characters, in order.
`acc` holds the characters of the token currently being read, reversed. -/
def splitWsAux : List Char → List Char → List String
  | [], acc => if acc.isEmpty then [] else [String.mk acc.reverse]
  | c :: cs, acc =>
    if pyIsSpace c then
      if acc.isEmpty then splitWsAux cs [] else String.mk acc.reverse :: splitWsAux cs []
    else
      splitWsAux cs (c :: acc)

/-- Model of Python `re.split(r"\s+", s)` applied to an already-stripped
string: on the empty string `re.split` returns `[""]`, otherwise the list of
whitespace-separated tokens (the stripped string has no leading or trailing
whitespace, so no empty fields arise). -/
def re_split_ws (s : String) : List String :=
  if s = "" then [""] else splitWsAux s.data []

/-- ASCII digit test. -/
def isAsciiDigit (c : Char) : Bool :=
  decide ('0' ≤ c ∧ c ≤ '9')

/-- Numeric value of an ASCII digit. -/
def digitVal (c : Char) : Nat := c.toNat - 48

/-- Continuation of Python `int()` digit parsing after at least one digit has
been read: further digits, with single underscores allowed only between
digits. `acc` is the value read so far. -/
def parseDigitsAux (acc : Nat) : List Char → Option Nat
  | [] => some acc
  | c :: cs =>
    if isAsciiDigit c then parseDigitsAux (acc * 10 + digitVal c) cs
    else if c = '_' then
      match cs with
      | d :: cs2 => if isAsciiDigit d then parseDigitsAux (acc * 10 + digitVal d) cs2 else none
      | [] => none
    else none

/-- Digit-sequence part of Python `int()`: one or more ASCII digits with
single underscores allowed between digits. -/
def parseDigits : List Char → Option Nat
  | [] => none
  | c :: cs => if isAsciiDigit c then parseDigitsAux (digitVal c) cs else none

/-- Model of Python `int(s)` for a whitespace-free string `s` (the call sites
in `parse_command` only ever pass whitespace-free tokens): an optional sign
followed by ASCII digits with optional single underscores between digits. -/
def pyIntOfString (s : String) : Option Int :=
  match s.data with
  | '+' :: cs => (parseDigits cs).map Int.ofNat
  | '-' :: cs => (parseDigits cs).map (fun n => -(n : Int))
  | cs => (parseDigits cs).map Int.ofNat

/-- Model of Python `s.endswith("%")`: the last character is `%`. -/
def endsPercent (s : String) : Bool :=
  s.data.getLast? = some '%'

/-- Round `num / den` to the nearest natural number, ties to even
(`den > 0` at every call site).  This is the exact value of CPython
`round(num / den)` at the call site `round(pct * 255 / 100)`: there
`num = pct * 255 ≤ 25500`, the float quotient is the correctly rounded
double of `num / 100`, whose distance to any half-integer boundary is
either `0` (an exactly representable value, returned exactly) or at least
`1 / 100`, far above the half-ulp error; CPython `round` on a float uses
round-half-to-even. -/
def roundHalfEven (num den : Nat) : Nat :=
  let q := num / den
  let r := num % den
  if 2 * r < den then q
  else if den < 2 * r then q + 1
  else if q % 2 = 0 then q else q + 1

/-- Brightness-token handling of `parse_command` (`main.py` lines 46-64),
applied to `raw_bri = parts[2].strip().lower()`. -/
def parseBrightness (raw_bri : String) : Except String Nat :=
  if endsPercent raw_bri then
    match pyIntOfString (String.mk raw_bri.data.dropLast) with
    | none => Except.error "Brightness percentage must be an integer 0..100"
    | some pct =>
      if 0 ≤ pct ∧ pct ≤ 100 then Except.ok (roundHalfEven (pct.toNat * 255) 100)
      else Except.error "Brightness percentage out of range 0..100"
  else
    match pyIntOfString raw_bri with
    | none => Except.error "Brightness must be an integer 0..255 or 0..100 percent"
    | some bri =>
      if 0 ≤ bri ∧ bri ≤ 255 then Except.ok bri.toNat
      else Except.error "Brightness out of range 0..255"

/-- Embedding of `parse_command` (`main.py` lines 23-66).
Raising `ValueError` is modelled by `Except.error`. -/
def parse_command (line : String) : Except String (String × String × Option Nat) :=
  if line = "" then Except.error "Empty command"
  else
    match re_split_ws (pyStrip line) with
    | p0 :: p1 :: rest =>
      let entity_id := pyLower p0
      let action := pyLower p1
      if action = "on" ∨ action = "off" then
        match rest with
        | p2 :: _ =>
          if action = "on" then
            match parseBrightness (pyLower (pyStrip p2)) with
            | Except.ok b => Except.ok (entity_id, action, some b)
            | Except.error e => Except.error e
          else Except.ok (entity_id, action, none)
        | [] => Except.ok (entity_id, action, none)
      else Except.error "Action must be ON or OFF"
    | _ => Except.error "Expected entity, action and optional brightness"

/-- `true` on `Except.error`, `false` on `Except.ok`. -/
def isErr {ε α : Type} : Except ε α → Bool
  | Except.error _ => true
  | Except.ok _ => false

/-- Byte test of `clean_command`: ASCII letter, `(65 <= b <= 90) or (97 <= b <= 122)`. -/
def isLetterByte (b : Nat) : Bool :=
  decide ((65 ≤ b ∧ b ≤ 90) ∨ (97 ≤ b ∧ b ≤ 122))

/-- The `for i, b in enumerate(raw) ... break` loop of `clean_command`:
index of the first ASCII letter byte, if any. -/
def firstLetterIdx : List Nat → Option Nat
  | [] => none
  | b :: rest => if isLetterByte b then some 0 else (firstLetterIdx rest).map (· + 1)

/-- Valid UTF-8 continuation byte, `0x80..0xBF`. -/
def contOk (b : Nat) : Bool :=
  decide (0x80 ≤ b ∧ b ≤ 0xBF)

/-- Valid second byte of a three-byte UTF-8 sequence with lead `b0`
(CPython decoder: `0xE0` needs `0xA0..0xBF`, `0xED` needs `0x80..0x9F`,
excluding overlong forms and surrogates). -/
def cont3Ok (b0 b1 : Nat) : Bool :=
  if b0 = 0xE0 then decide (0xA0 ≤ b1 ∧ b1 ≤ 0xBF)
  else if b0 = 0xED then decide (0x80 ≤ b1 ∧ b1 ≤ 0x9F)
  else contOk b1

/-- Valid second byte of a four-byte UTF-8 sequence with lead `b0`
(`0xF0` needs `0x90..0xBF`, `0xF4` needs `0x80..0x8F`). -/
def cont4Ok (b0 b1 : Nat) : Bool :=
  if b0 = 0xF0 then decide (0x90 ≤ b1 ∧ b1 ≤ 0xBF)
  else if b0 = 0xF4 then decide (0x80 ≤ b1 ∧ b1 ≤ 0x8F)
  else contOk b1

/-- One pass of CPython's UTF-8 decoder with `errors="ignore"`: an invalid
or truncated sequence contributes nothing, decoding resumes after its
longest valid prefix.  The fuel argument only drives structural recursion;
every step consumes at least one byte, so fuel equal to the list length
(supplied by `decodeUtf8Ignore`) never runs out. -/
def decodeAux : Nat → List Nat → List Char
  | _, [] => []
  | 0, _ => []
  | fuel + 1, b0 :: rest =>
    if b0 < 0x80 then Char.ofNat b0 :: decodeAux fuel rest
    else if b0 < 0xC2 then decodeAux fuel rest
    else if b0 < 0xE0 then
      match rest with
      | [] => []
      | b1 :: rest1 =>
        if contOk b1 then
          Char.ofNat ((b0 - 0xC0) * 0x40 + (b1 - 0x80)) :: decodeAux fuel rest1
        else decodeAux fuel rest
    else if b0 < 0xF0 then
      match rest with
      | [] => []
      | b1 :: rest1 =>
        if cont3Ok b0 b1 then
          match rest1 with
          | [] => []
          | b2 :: rest2 =>
            if contOk b2 then
              Char.ofNat ((b0 - 0xE0) * 0x1000 + (b1 - 0x80) * 0x40 + (b2 - 0x80)) ::
                decodeAux fuel rest2
            else decodeAux fuel rest1
        else decodeAux fuel rest
    else if b0 < 0xF5 then
      match rest with
      | [] => []
      | b1 :: rest1 =>
        if cont4Ok b0 b1 then
          match rest1 with
          | [] => []
          | b2 :: rest2 =>
            if contOk b2 then
              match rest2 with
              | [] => []
              | b3 :: rest3 =>
                if contOk b3 then
                  Char.ofNat ((b0 - 0xF0) * 0x40000 + (b1 - 0x80) * 0x1000 +
                      (b2 - 0x80) * 0x40 + (b3 - 0x80)) :: decodeAux fuel rest3
                else decodeAux fuel rest2
            else decodeAux fuel rest1
        else decodeAux fuel rest
    else decodeAux fuel rest

/-- Model of Python `raw.decode("utf-8", errors="ignore")`. -/
def decodeUtf8Ignore (raw : List Nat) : List Char :=
  decodeAux raw.length raw

/-- Embedding of `clean_command` (`main.py` lines 72-85): keep from the
first ASCII letter, decode dropping invalid sequences, strip whitespace. -/
def clean_command (raw : List Nat) : String :=
  match firstLetterIdx raw with
  | none => ""
  | some start => pyStrip (String.mk (decodeUtf8Ignore (raw.drop start)))

/-- Embedding of `domain_from_entity` (`main.py` lines 87-90):
`entity_id.split(".", 1)[0]` is the part before the first `.`. -/
def domain_from_entity (entity_id : String) : Except String String :=
  if entity_id.data.contains '.' then
    Except.ok (String.mk (entity_id.data.takeWhile (fun c => c ≠ '.')))
  else Except.error "entity_id must include domain"

/-- JSON-ish payload values sent to Home Assistant. -/
inductive PValue : Type where
  | s (v : String)
  | n (v : Nat)
deriving DecidableEq

/-- The `data` dict of `build_service_call`, as an insertion-ordered
association list. -/
abbrev Payload := List (String × PValue)

/-- Embedding of `build_service_call` (`main.py` lines 93-117). -/
def build_service_call (entity_id action : String) (brightness : Option Nat) :
    Except String (String × String × Payload) :=
  match domain_from_entity entity_id with
  | Except.error e => Except.error e
  | Except.ok dom =>
    let data : Payload := [("entity_id", PValue.s entity_id)]
    if dom = "light" then
      let service := if action = "on" then "turn_on" else "turn_off"
      let data :=
        if action = "on" then
          match brightness with
          | some b => data ++ [("brightness", PValue.n b)]
          | none => data
        else data
      Except.ok ("light", service, data)
    else if dom = "switch" then
      Except.ok ("switch", (if action = "on" then "turn_on" else "turn_off"), data)
    else
      Except.ok ("homeassistant", (if action = "on" then "turn_on" else "turn_off"), data)

/-- What the HTTP transport produced for the one outbound POST: a response
with a status code and body, or a transport-level failure (connection
refused, timeout, DNS), which `requests.post` raises as an exception. -/
inductive HttpResult : Type where
  | response (status : Nat) (body : String)
  | transportError (msg : String)
deriving DecidableEq

/-- Embedding of `call_ha_service` (`main.py` lines 120-127), parameterised
by the transport result of the POST.  A transport failure propagates as the
exception raised by `requests.post`; a response with status `>= 400` raises
`RuntimeError`; otherwise the call returns normally. -/
def call_ha_service (t : HttpResult) : Except String Unit :=
  match t with
  | HttpResult.transportError m => Except.error m
  | HttpResult.response status body =>
    if 400 ≤ status then
      Except.error ("HA service error " ++ toString status ++ ": " ++ String.mk (body.data.take 200))
    else Except.ok ()

/-- Log statements executed by `handle` itself, abstracted to the event and
the data interpolated into the message. -/
inductive LogEvent : Type where
  | rx (line : String)
  | inputError (msg : String) (line : String)
  | buildError (msg : String) (line : String)
  | haCall (domain service : String)
  | okLog
  | fatalLog
deriving DecidableEq

/-- Observable outcome of one `handle` run. -/
structure HandleResult : Type where
  /-- Outbound POSTs attempted, as `(domain, service, payload)`. -/
  calls : List (String × String × Payload)
  /-- Log records emitted by `handle`, in order. -/
  logs : List LogEvent
  /-- Whether the `finally` block's `writer.close()` ran. -/
  socketClosed : Bool
  /-- Whether the process terminated via `os._exit(1)`. -/
  exited : Bool
deriving DecidableEq

/-- Embedding of the connection handler `handle` (`main.py` lines 133-169),
over the received frame `raw` and the transport result `t` of the outbound
POST (consulted only if the handler reaches the call).  `ValueError` from
parsing or mapping is caught by the inner handlers, which `return`, so the
`finally` block closes the socket.  Any other exception — in particular the
`RuntimeError` or transport exception surfaced by `call_ha_service` — is
caught by the outer `except Exception`, which calls `os._exit(1)`;
`os._exit` terminates the process immediately, so the `finally` block is
skipped and `writer.close()` never runs on that path. -/
def handle (raw : List Nat) (t : HttpResult) : HandleResult :=
  let line := clean_command raw
  match parse_command line with
  | Except.error ve =>
    { calls := [], logs := [LogEvent.rx line, LogEvent.inputError ve line],
      socketClosed := true, exited := false }
  | Except.ok (entity_id, action, brightness) =>
    match build_service_call entity_id action brightness with
    | Except.error ve =>
      { calls := [], logs := [LogEvent.rx line, LogEvent.buildError ve line],
        socketClosed := true, exited := false }
    | Except.ok (domain, service, payload) =>
      match call_ha_service t with
      | Except.ok _ =>
        { calls := [(domain, service, payload)],
          logs := [LogEvent.rx line, LogEvent.haCall domain service, LogEvent.okLog],
          socketClosed := true, exited := false }
      | Except.error _ =>
        { calls := [(domain, service, payload)],
          logs := [LogEvent.rx line, LogEvent.haCall domain service, LogEvent.fatalLog],
          socketClosed := false, exited := true }

/-- ASCII bytes of a string, for writing concrete frames. -/
def strBytes (s : String) : List Nat :=
  s.data.map Char.toNat

/-- C3: the claim states that an entity reference beginning with `.` (empty
domain prefix) is rejected with `DomainError`.  It is not: `".foo"` contains
a `.`, so `domain_from_entity` succeeds with the empty-string domain and the
mapper falls through to the generic `homeassistant` service. -/
theorem c3_counterexample :
    domain_from_entity ".foo" = Except.ok "" ∧
    build_service_call ".foo" "on" none =
      Except.ok ("homeassistant", "turn_on", [("entity_id", PValue.s ".foo")]) ∧
    isErr (build_service_call ".foo" "on" none) = false :=
  ⟨rfl, rfl, rfl⟩

/-- The mapper fails exactly when the entity reference has no `.`
(shared between the C3 and C10 developments). -/
theorem build_err_iff_no_dot (e a : String) (b : Option Nat) :
    isErr (build_service_call e a b) = true ↔ e.data.contains '.' = false := by
  cases hc : e.data.contains '.' with
  | false =>
    have hdom : domain_from_entity e = Except.error "entity_id must include domain" := by
      unfold domain_from_entity
      rw [if_neg]
      intro h
      rw [h] at hc
      cases hc
    simp [build_service_call, hdom, isErr]
  | true =>
    have hdom : domain_from_entity e =
        Except.ok (String.mk (e.data.takeWhile (fun c => c ≠ '.'))) := by
      unfold domain_from_entity
      rw [if_pos hc]
    simp only [build_service_call, hdom, Bool.true_eq_false, iff_false]
    split
    · simp [isErr]
    · split
      · simp [isErr]
      · simp [isErr]

/-- C3 (amended): the Service Mapper fails with `DomainError` exactly when
the entity reference contains no `.` at all; a `.` anywhere — including as
the first character, giving an empty domain prefix — is accepted. -/
theorem c3_mapper_error_iff (e a : String) (b : Option Nat) :
    isErr (build_service_call e a b) = true ↔ e.data.contains '.' = false :=
  build_err_iff_no_dot e a b

/-- C10: an entity reference containing more than one `.` is not rejected:
the domain is the part before the first `.`, and the payload still carries
the full multi-dot entity reference under `entity_id`. -/
theorem c10_multi_dot_entity (e a : String) (b : Option Nat)
    (h : 2 ≤ e.data.count '.') :
    domain_from_entity e = Except.ok (String.mk (e.data.takeWhile (fun c => c ≠ '.'))) ∧
    isErr (build_service_call e a b) = false ∧
    ∃ d s p, build_service_call e a b = Except.ok (d, s, p) ∧
      ("entity_id", PValue.s e) ∈ p := by
  have hmem : '.' ∈ e.data := List.count_pos_iff.mp (by omega)
  have hc : e.data.contains '.' = true := List.elem_eq_true_of_mem hmem
  have hdom : domain_from_entity e =
      Except.ok (String.mk (e.data.takeWhile (fun c => c ≠ '.'))) := by
    unfold domain_from_entity
    rw [if_pos hc]
  refine ⟨hdom, ?_, ?_⟩
  · cases hE : isErr (build_service_call e a b) with
    | false => rfl
    | true =>
      have hno := (build_err_iff_no_dot e a b).mp hE
      rw [hc] at hno
      exact absurd hno (by simp)
  · simp only [build_service_call, hdom]
    split
    · split
      · split
        · exact ⟨_, _, _, rfl, by simp⟩
        · exact ⟨_, _, _, rfl, by simp⟩
      · exact ⟨_, _, _, rfl, by simp⟩
    · split
      · exact ⟨_, _, _, rfl, by simp⟩
      · exact ⟨_, _, _, rfl, by simp⟩

/-- Witness for `c10_multi_dot_entity` at `light.a.b off`. -/
theorem c10_witness :
    2 ≤ ("light.a.b".data.count '.') ∧
    domain_from_entity "light.a.b" = Except.ok "light" ∧
    isErr (build_service_call "light.a.b" "off" none) = false ∧
    ∃ d s p, build_service_call "light.a.b" "off" none = Except.ok (d, s, p) ∧
      ("entity_id", PValue.s "light.a.b") ∈ p := by
  have h2 : 2 ≤ ("light.a.b".data.count '.') := by decide
  have h := c10_multi_dot_entity "light.a.b" "off" none h2
  exact ⟨h2, by simpa using h.1, h.2.1, h.2.2⟩

/-- C8: for every Command with a domain-prefixed entity reference, the
mapper returns service domain `light`/`switch`/`homeassistant` by domain
prefix, service name `turn_on`/`turn_off` by action alone, a payload always
carrying the full entity reference under `entity_id`, and a `brightness`
key exactly when the domain is `light`, the action is `on` and brightness
is set. -/
theorem c8_mapper_table (e a : String) (b : Option Nat) (d : String)
    (hdom : domain_from_entity e = Except.ok d)
    (ha : a = "on" ∨ a = "off") :
    ∃ p : Payload,
      build_service_call e a b =
        Except.ok
          ((if d = "light" then "light" else if d = "switch" then "switch" else "homeassistant"),
           (if a = "on" then "turn_on" else "turn_off"), p) ∧
      ("entity_id", PValue.s e) ∈ p ∧
      (((p.map Prod.fst).contains "brightness" = true) ↔ (d = "light" ∧ a = "on" ∧ b ≠ none)) := by
  simp only [build_service_call, hdom]
  by_cases hd : d = "light"
  · by_cases hon : a = "on"
    · cases b with
      | none =>
        refine ⟨[("entity_id", PValue.s e)], ?_, by simp, ?_⟩
        · simp [hd, hon]
        · simp
      | some v =>
        refine ⟨[("entity_id", PValue.s e), ("brightness", PValue.n v)], ?_, by simp, ?_⟩
        · simp [hd, hon]
        · simp [hd, hon]
    · refine ⟨[("entity_id", PValue.s e)], ?_, by simp, ?_⟩
      · simp [hd, hon]
      · simp [hon]
  · by_cases hs : d = "switch"
    · refine ⟨[("entity_id", PValue.s e)], ?_, by simp, ?_⟩
      · simp [hd, hs]
      · simp [hd]
    · refine ⟨[("entity_id", PValue.s e)], ?_, by simp, ?_⟩
      · simp [hd, hs]
      · simp [hd]

/-- Witness for `c8_mapper_table` at `switch.fan1 off`. -/
theorem c8_witness :
    domain_from_entity "switch.fan1" = Except.ok "switch" ∧
    ∃ p : Payload,
      build_service_call "switch.fan1" "off" none = Except.ok ("switch", "turn_off", p) ∧
      ("entity_id", PValue.s "switch.fan1") ∈ p ∧
      ¬ ((p.map Prod.fst).contains "brightness" = true) := by
  have hdom : domain_from_entity "switch.fan1" = Except.ok "switch" := by rfl
  obtain ⟨p, hp, hmem, hiff⟩ :=
    c8_mapper_table "switch.fan1" "off" none "switch" hdom (Or.inr rfl)
  refine ⟨hdom, p, by simpa using hp, hmem, ?_⟩
  intro hb
  have := hiff.mp hb
  simp at this

/-- C7: whenever the action token lower-cases to `off`, parsing succeeds
with brightness `None` — any third token, valid brightness or not, is
ignored and never raises. -/
theorem c7_off_ignores_brightness (line p0 p1 : String) (rest : List String)
    (hne : line ≠ "")
    (htok : re_split_ws (pyStrip line) = p0 :: p1 :: rest)
    (hoff : pyLower p1 = "off") :
    parse_command line = Except.ok (pyLower p0, "off", none) := by
  unfold parse_command
  rw [if_neg hne, htok]
  cases rest with
  | nil => simp [hoff]
  | cons p2 r => simp [hoff]

/-- Witness for `c7_off_ignores_brightness` at `switch.fan1 off 200`
(the `200` would be a valid brightness, but is dropped). -/
theorem c7_witness :
    parse_command "switch.fan1 off 200" = Except.ok ("switch.fan1", "off", none) := by
  have h := c7_off_ignores_brightness "switch.fan1 off 200" "switch.fan1" "off" ["200"]
    (by decide) (by rfl) (by rfl)
  exact h

/-- C5: brightness-token rule for action `on`.  A token ending in `%` needs
an integer prefix in `[0, 100]` and is scaled by `round(pct * 255 / 100)`
with ties to even (so `50%` gives the fixed value `128` and `100%` gives
`255`); any other token must be an integer in `[0, 255]` and is used
unchanged; out-of-range or non-integer tokens raise `ParseError`. -/
theorem c5_brightness_rule (tok : String) :
    (endsPercent tok = true →
      (pyIntOfString (String.mk tok.data.dropLast) = none →
        isErr (parseBrightness tok) = true) ∧
      (∀ pct : Int, pyIntOfString (String.mk tok.data.dropLast) = some pct →
        (0 ≤ pct ∧ pct ≤ 100 →
          parseBrightness tok = Except.ok (roundHalfEven (pct.toNat * 255) 100)) ∧
        (¬(0 ≤ pct ∧ pct ≤ 100) → isErr (parseBrightness tok) = true))) ∧
    (endsPercent tok = false →
      (pyIntOfString tok = none → isErr (parseBrightness tok) = true) ∧
      (∀ n : Int, pyIntOfString tok = some n →
        (0 ≤ n ∧ n ≤ 255 → parseBrightness tok = Except.ok n.toNat) ∧
        (¬(0 ≤ n ∧ n ≤ 255) → isErr (parseBrightness tok) = true))) ∧
    roundHalfEven (50 * 255) 100 = 128 ∧ roundHalfEven (100 * 255) 100 = 255 := by
  refine ⟨?_, ?_, by rfl, by rfl⟩
  · intro hp
    refine ⟨?_, ?_⟩
    · intro hnone
      simp [parseBrightness, hp, hnone, isErr]
    · intro pct hsome
      refine ⟨?_, ?_⟩
      · intro hin
        simp [parseBrightness, hp, hsome, hin]
      · intro hout
        simp [parseBrightness, hp, hsome, hout, isErr]
  · intro hp
    refine ⟨?_, ?_⟩
    · intro hnone
      simp [parseBrightness, hp, hnone, isErr]
    · intro n hsome
      refine ⟨?_, ?_⟩
      · intro hin
        simp [parseBrightness, hp, hsome, hin]
      · intro hout
        simp [parseBrightness, hp, hsome, hout, isErr]

/-- Witness for `c5_brightness_rule`: `50%` scales to `128`, `100%` to
`255`, `150%` and `300` are rejected, `200` is used unchanged. -/
theorem c5_witness :
    parseBrightness "50%" = Except.ok 128 ∧
    parseBrightness "100%" = Except.ok 255 ∧
    isErr (parseBrightness "150%") = true ∧
    parseBrightness "200" = Except.ok 200 ∧
    isErr (parseBrightness "300") = true := by
  refine ⟨?_, ?_, ?_, ?_, ?_⟩
  · exact ((((c5_brightness_rule "50%").1 (by rfl)).2 50 (by rfl)).1 (by decide))
  · exact ((((c5_brightness_rule "100%").1 (by rfl)).2 100 (by rfl)).1 (by decide))
  · exact ((((c5_brightness_rule "150%").1 (by rfl)).2 150 (by rfl)).2 (by decide))
  · exact ((((c5_brightness_rule "200").2.1 (by rfl)).2 200 (by rfl)).1 (by decide))
  · exact ((((c5_brightness_rule "300").2.1 (by rfl)).2 300 (by rfl)).2 (by decide))

/-- `firstLetterIdx` is `none` exactly on byte sequences with no ASCII
letter. -/
theorem firstLetterIdx_eq_none (raw : List Nat) :
    firstLetterIdx raw = none ↔ ∀ b ∈ raw, isLetterByte b = false := by
  induction raw with
  | nil => simp [firstLetterIdx]
  | cons b rest ih =>
    cases hb : isLetterByte b with
    | true => simp [firstLetterIdx, hb]
    | false => simp [firstLetterIdx, hb, ih]

/-- Dropping up to the first-letter index is dropping while not a letter. -/
theorem drop_firstLetterIdx (raw : List Nat) (i : Nat)
    (h : firstLetterIdx raw = some i) :
    raw.drop i = raw.dropWhile (fun b => !(isLetterByte b)) := by
  induction raw generalizing i with
  | nil => exact Option.noConfusion h
  | cons b rest ih =>
    cases hb : isLetterByte b with
    | true =>
      rw [firstLetterIdx, if_pos hb] at h
      cases h
      rw [List.drop_zero, List.dropWhile_cons, hb]
      simp
    | false =>
      rw [firstLetterIdx, if_neg (by simp [hb])] at h
      cases hj : firstLetterIdx rest with
      | none => rw [hj] at h; cases h
      | some j =>
        rw [hj] at h
        simp only [Option.map_some'] at h
        cases h
        simp [List.dropWhile, hb, ih j hj]

/-- C9: the Frame Extractor returns `""` when no byte is an ASCII letter;
otherwise it decodes, with invalid UTF-8 dropped, from the first ASCII
letter to the end and strips surrounding whitespace — in particular a frame
starting directly with a letter is decoded whole and trimmed. -/
theorem c9_frame_extractor (raw : List Nat) :
    ((∀ b ∈ raw, isLetterByte b = false) → clean_command raw = "") ∧
    ((∃ b ∈ raw, isLetterByte b = true) →
      clean_command raw =
        pyStrip (String.mk (decodeUtf8Ignore (raw.dropWhile (fun b => !(isLetterByte b)))))) ∧
    (∀ b rest, raw = b :: rest → isLetterByte b = true →
      clean_command raw = pyStrip (String.mk (decodeUtf8Ignore raw))) := by
  refine ⟨?_, ?_, ?_⟩
  · intro hall
    unfold clean_command
    rw [(firstLetterIdx_eq_none raw).mpr hall]
  · intro hex
    cases hfi : firstLetterIdx raw with
    | none =>
      obtain ⟨b, hmem, hb⟩ := hex
      have := (firstLetterIdx_eq_none raw).mp hfi b hmem
      rw [hb] at this
      cases this
    | some i =>
      unfold clean_command
      rw [hfi]
      show pyStrip (String.mk (decodeUtf8Ignore (raw.drop i))) = _
      rw [drop_firstLetterIdx raw i hfi]
  · intro b rest hraw hb
    subst hraw
    have hf0 : firstLetterIdx (b :: rest) = some 0 := by
      rw [firstLetterIdx, if_pos hb]
    unfold clean_command
    rw [hf0]
    rfl

/-- Witness for `c9_frame_extractor`: a letter-free frame gives `""`; a
frame with a binary header is decoded from the first letter and trimmed;
a frame starting with a letter is decoded whole and trimmed. -/
theorem c9_witness :
    clean_command [0, 37, 13] = "" ∧
    clean_command [7, 104, 105, 10] =
      pyStrip (String.mk (decodeUtf8Ignore ([7, 104, 105, 10].dropWhile (fun b => !(isLetterByte b))))) ∧
    clean_command [104, 105, 32] = pyStrip (String.mk (decodeUtf8Ignore [104, 105, 32])) := by
  refine ⟨?_, ?_, ?_⟩
  · exact (c9_frame_extractor [0, 37, 13]).1 (by decide)
  · exact (c9_frame_extractor [7, 104, 105, 10]).2.1 ⟨104, by decide, by decide⟩
  · exact (c9_frame_extractor [104, 105, 32]).2.2 104 [105, 32] rfl (by decide)

/-- C6: `parse_command` fails exactly when the line is empty, fewer than two
tokens are present, the second token is not `on`/`off` case-insensitively,
or a brightness token supplied with action `on` is invalid; on success it
returns the lower-cased first token as entity reference and the lower-cased
action, and the whole result is determined by the first three tokens, so
tokens beyond the third are ignored. -/
theorem c6_parse_characterisation (line : String) :
    (isErr (parse_command line) = true ↔
      (line = "" ∨ (re_split_ws (pyStrip line)).length < 2 ∨
        (pyLower ((re_split_ws (pyStrip line)).getD 1 "") ≠ "on" ∧
         pyLower ((re_split_ws (pyStrip line)).getD 1 "") ≠ "off") ∨
        (pyLower ((re_split_ws (pyStrip line)).getD 1 "") = "on" ∧
         3 ≤ (re_split_ws (pyStrip line)).length ∧
         isErr (parseBrightness (pyLower (pyStrip ((re_split_ws (pyStrip line)).getD 2 "")))) = true))) ∧
    (∀ e a b, parse_command line = Except.ok (e, a, b) →
      e = pyLower ((re_split_ws (pyStrip line)).getD 0 "") ∧
      a = pyLower ((re_split_ws (pyStrip line)).getD 1 "") ∧
      b = (if a = "on" ∧ 3 ≤ (re_split_ws (pyStrip line)).length then
            (parseBrightness (pyLower (pyStrip ((re_split_ws (pyStrip line)).getD 2 "")))).toOption
          else none)) := by
  by_cases hline : line = ""
  · constructor
    · simp [parse_command, hline, isErr]
    · intro e a b h
      rw [parse_command, if_pos hline] at h
      exact Except.noConfusion h
  · cases hts : re_split_ws (pyStrip line) with
    | nil =>
      constructor
      · simp [parse_command, hline, hts, isErr]
      · intro e a b h
        rw [parse_command, if_neg hline, hts] at h
        exact Except.noConfusion h
    | cons p0 t =>
      cases t with
      | nil =>
        constructor
        · simp [parse_command, hline, hts, isErr]
        · intro e a b h
          rw [parse_command, if_neg hline, hts] at h
          exact Except.noConfusion h
      | cons p1 rest =>
        by_cases hon : pyLower p1 = "on"
        · cases rest with
          | nil =>
            constructor
            · simp [parse_command, hline, hts, hon, isErr]
            · intro e a b h
              rw [parse_command, if_neg hline, hts] at h
              simp [hon] at h
              obtain ⟨he, ha, hb⟩ := h
              subst he; subst ha; subst hb
              simp [hts, hon]
          | cons p2 r2 =>
            cases hpb : parseBrightness (pyLower (pyStrip p2)) with
            | ok bb =>
              constructor
              · simp [parse_command, hline, hts, hon, hpb, isErr]
              · intro e a b h
                rw [parse_command, if_neg hline, hts] at h
                simp [hon, hpb] at h
                obtain ⟨he, ha, hb⟩ := h
                subst he; subst ha; subst hb
                simp [hts, hon, hpb, Except.toOption]
            | error msg =>
              constructor
              · simp [parse_command, hline, hts, hon, hpb, isErr]
              · intro e a b h
                rw [parse_command, if_neg hline, hts] at h
                simp [hon, hpb] at h
        · by_cases hoff : pyLower p1 = "off"
          · cases rest with
            | nil =>
              constructor
              · simp [parse_command, hline, hts, hon, hoff, isErr]
              · intro e a b h
                rw [parse_command, if_neg hline, hts] at h
                simp [hon, hoff] at h
                obtain ⟨he, ha, hb⟩ := h
                subst he; subst ha; subst hb
                simp [hts, hon, hoff]
            | cons p2 r2 =>
              constructor
              · simp [parse_command, hline, hts, hon, hoff, isErr]
              · intro e a b h
                rw [parse_command, if_neg hline, hts] at h
                simp [hon, hoff] at h
                obtain ⟨he, ha, hb⟩ := h
                subst he; subst ha; subst hb
                simp [hts, hon, hoff]
          · constructor
            · simp [parse_command, hline, hts, hon, hoff, isErr]
            · intro e a b h
              rw [parse_command, if_neg hline, hts] at h
              simp [hon, hoff] at h

/-- Witness for `c6_parse_characterisation`: `light.x maybe` is rejected
(second token is neither `on` nor `off`), and `LIGHT.B ON 5 junk` parses to
the lower-cased entity and action with the extra fourth token ignored. -/
theorem c6_witness :
    isErr (parse_command "light.x maybe") = true ∧
    "light.b" = pyLower ((re_split_ws (pyStrip "LIGHT.B ON 5 junk")).getD 0 "") ∧
    "on" = pyLower ((re_split_ws (pyStrip "LIGHT.B ON 5 junk")).getD 1 "") ∧
    some 5 = (if ("on" : String) = "on" ∧ 3 ≤ (re_split_ws (pyStrip "LIGHT.B ON 5 junk")).length then
        (parseBrightness (pyLower (pyStrip ((re_split_ws (pyStrip "LIGHT.B ON 5 junk")).getD 2 "")))).toOption
      else none) := by
  refine ⟨?_, ?_⟩
  · exact (c6_parse_characterisation "light.x maybe").1.mpr (by right; right; left; decide)
  · exact (c6_parse_characterisation "LIGHT.B ON 5 junk").2 "light.b" "on" (some 5) (by rfl)

/-- C1 (counterexample to the claim as stated): a frame that parses and
maps successfully, whose outbound call the hub rejects with status 500.
The claim says the connection ends as `ClosedClean` and the process does
not terminate; in fact `handle` reaches the outer `except Exception`
handler and terminates the process via `os._exit(1)`, skipping the socket
close. -/
theorem c1_counterexample :
    (handle (strBytes "light.bulb1 on\n") (HttpResult.response 500 "err")).calls =
      [("light", "turn_on", [("entity_id", PValue.s "light.bulb1")])] ∧
    (handle (strBytes "light.bulb1 on\n") (HttpResult.response 500 "err")).exited = true ∧
    (handle (strBytes "light.bulb1 on\n") (HttpResult.response 500 "err")).socketClosed = false :=
  ⟨rfl, rfl, rfl⟩

/-- C1 (amended): for every connection whose frame parses and maps
successfully but whose outbound call fails (hub status `>= 400` or
transport error), the handler makes the one call, logs the fatal error and
terminates the whole process, without running the socket close. -/
theorem c1_invoke_failure_fatal (raw : List Nat) (t : HttpResult)
    (e a : String) (b : Option Nat) (d s : String) (p : Payload)
    (hp : parse_command (clean_command raw) = Except.ok (e, a, b))
    (hbc : build_service_call e a b = Except.ok (d, s, p))
    (hc : isErr (call_ha_service t) = true) :
    (handle raw t).calls = [(d, s, p)] ∧
    LogEvent.fatalLog ∈ (handle raw t).logs ∧
    (handle raw t).exited = true ∧
    (handle raw t).socketClosed = false := by
  cases hct : call_ha_service t with
  | ok u =>
    rw [hct] at hc
    exact Bool.noConfusion hc
  | error m => simp [handle, hp, hbc, hct]

/-- Witness for `c1_invoke_failure_fatal`: `light.bulb1 off` with the hub
unreachable. -/
theorem c1_witness :
    (handle (strBytes "light.bulb1 off\n") (HttpResult.transportError "timeout")).calls =
      [("light", "turn_off", [("entity_id", PValue.s "light.bulb1")])] ∧
    LogEvent.fatalLog ∈ (handle (strBytes "light.bulb1 off\n") (HttpResult.transportError "timeout")).logs ∧
    (handle (strBytes "light.bulb1 off\n") (HttpResult.transportError "timeout")).exited = true ∧
    (handle (strBytes "light.bulb1 off\n") (HttpResult.transportError "timeout")).socketClosed = false := by
  exact c1_invoke_failure_fatal (strBytes "light.bulb1 off\n")
    (HttpResult.transportError "timeout") "light.bulb1" "off" none "light" "turn_off"
    [("entity_id", PValue.s "light.bulb1")] (by rfl) (by rfl) (by rfl)

/-- C2 (code bug): the socket close in the `finally` block is skipped on
the fatal path.  With frame `light.bulb1 on\n` and the hub unreachable,
the handler reaches `os._exit(1)` inside the `except` block, which
terminates the process before the `finally` block runs, so the socket is
not closed before the process terminates — while on a successful call the
close does run. -/
theorem c2_fatal_path_skips_close :
    (handle (strBytes "light.bulb1 on\n") (HttpResult.transportError "connection refused")).exited = true ∧
    (handle (strBytes "light.bulb1 on\n") (HttpResult.transportError "connection refused")).socketClosed = false ∧
    (handle (strBytes "light.bulb1 on\n") (HttpResult.response 200 "ok")).socketClosed = true :=
  ⟨rfl, rfl, rfl⟩

/-- C4 (amended): a frame extracting to `light.bulb1 on 100%` produces
exactly one outbound call with payload `entity_id = light.bulb1`,
`brightness = 255`; the connection is closed afterwards when the call
succeeds (on a failed call the process exits without the explicit close);
a frame whose extracted line does not parse produces zero outbound calls
and a cleanly closed connection. -/
theorem c4_end_to_end (raw : List Nat) (t : HttpResult) :
    (clean_command raw = "light.bulb1 on 100%" →
      (handle raw t).calls =
        [("light", "turn_on",
          [("entity_id", PValue.s "light.bulb1"), ("brightness", PValue.n 255)])] ∧
      (isErr (call_ha_service t) = false →
        (handle raw t).socketClosed = true ∧ (handle raw t).exited = false)) ∧
    (isErr (parse_command (clean_command raw)) = true →
      (handle raw t).calls = [] ∧ (handle raw t).socketClosed = true ∧
      (handle raw t).exited = false) := by
  constructor
  · intro hclean
    have hp : parse_command (clean_command raw) = Except.ok ("light.bulb1", "on", some 255) := by
      rw [hclean]
      rfl
    have hbc : build_service_call "light.bulb1" "on" (some 255) =
        Except.ok ("light", "turn_on",
          [("entity_id", PValue.s "light.bulb1"), ("brightness", PValue.n 255)]) := by rfl
    cases hct : call_ha_service t with
    | ok u =>
      refine ⟨by simp [handle, hp, hbc, hct], fun _ => ?_⟩
      simp [handle, hp, hbc, hct]
    | error m =>
      refine ⟨by simp [handle, hp, hbc, hct], fun hfalse => ?_⟩
      exact Bool.noConfusion hfalse
  · intro herr
    cases hp : parse_command (clean_command raw) with
    | ok v =>
      rw [hp] at herr
      exact Bool.noConfusion herr
    | error m => simp [handle, hp]

/-- C4 (counterexample to the claim as stated): with four arbitrary
non-letter header bytes and an unreachable-or-rejecting hub, exactly one
call with the right payload is made, but the connection is NOT closed
afterwards — the process exits first, refuting the unconditional "the
connection is closed afterwards". -/
theorem c4_counterexample :
    clean_command ([24, 39, 1, 3] ++ strBytes "light.bulb1 on 100%\n") = "light.bulb1 on 100%" ∧
    (handle ([24, 39, 1, 3] ++ strBytes "light.bulb1 on 100%\n") (HttpResult.response 500 "err")).calls =
      [("light", "turn_on",
        [("entity_id", PValue.s "light.bulb1"), ("brightness", PValue.n 255)])] ∧
    (handle ([24, 39, 1, 3] ++ strBytes "light.bulb1 on 100%\n") (HttpResult.response 500 "err")).socketClosed = false :=
  ⟨rfl, rfl, rfl⟩

/-- Witness for `c4_end_to_end`: the headered `light.bulb1 on 100%` frame
with a 200 response, and the unparsable frame `garbage`. -/
theorem c4_witness :
    (handle ([24, 39, 1, 3] ++ strBytes "light.bulb1 on 100%\n") (HttpResult.response 200 "")).calls =
      [("light", "turn_on",
        [("entity_id", PValue.s "light.bulb1"), ("brightness", PValue.n 255)])] ∧
    (handle ([24, 39, 1, 3] ++ strBytes "light.bulb1 on 100%\n") (HttpResult.response 200 "")).socketClosed = true ∧
    (handle (strBytes "garbage\n") (HttpResult.response 200 "")).calls = [] ∧
    (handle (strBytes "garbage\n") (HttpResult.response 200 "")).socketClosed = true := by
  have h1 := (c4_end_to_end ([24, 39, 1, 3] ++ strBytes "light.bulb1 on 100%\n")
    (HttpResult.response 200 "")).1 (by rfl)
  have h2 := (c4_end_to_end (strBytes "garbage\n") (HttpResult.response 200 "")).2 (by rfl)
  exact ⟨h1.1, (h1.2 (by rfl)).1, h2.1, h2.2.1⟩

end HaIpBinary
